import Mathlib

/-!
Shallow embedding of the ICMP echo-probe tool (`02-icmp.cpp`, embedded at the
end of `src/04-receiver.cpp`) of the Network-Socket-Programming-Example-CPP
repository, together with theorems checking the natural-language specification
against it.

Modelling conventions:
* A byte buffer is a `List Nat`, each entry the value of one byte (0..255).
* Machine integers are `Nat` with explicit `% 2^w` where C overflow semantics
  matter (`unsigned int` accumulation is `% U32`, `unsigned short` results are
  `% U16`).
* The code runs on a little-endian machine: a `u16` read through an
  `unsigned short*` at byte offset `i` is `b[i] + 256 * b[i+1]`, and storing a
  `u16` writes `v % 256` at offset `i` and `v / 256 % 256` at offset `i+1`.
* Wall-clock instants are nanoseconds elapsed since the `start` timestamp that
  is taken immediately before `sendto`.
-/

namespace IcmpProbe

/-- Bound of C `unsigned short` arithmetic. -/
def U16 : Nat := 65536

/-- Bound of C `unsigned int` arithmetic. -/
def U32 : Nat := 4294967296

/-- PACKET_SIZE macro: payload bytes of the echo request. -/
def PACKET_SIZE : Nat := 56

/-- Size of `struct icmphdr` (type, code, checksum, id, sequence). -/
def ICMP_HEADER_SIZE : Nat := 8

/-- Total bytes of the send buffer: `PACKET_SIZE + sizeof(struct icmphdr)`. -/
def TOTAL_SIZE : Nat := PACKET_SIZE + ICMP_HEADER_SIZE

/-- MAX_WAIT_TIME macro, in milliseconds. -/
def MAX_WAIT_TIME : Nat := 1000

/-- The overall wait budget expressed in nanoseconds. -/
def MAX_WAIT_NS : Nat := 1000000000

/-- The kernel receive timeout (`SO_RCVTIMEO`, `timeout.tv_sec = 1`) in ns. -/
def RCV_TIMEOUT_NS : Nat := 1000000000

/-- ICMP_ECHO message type (echo request). -/
def ICMP_ECHO : Nat := 8

/-- ICMP_ECHOREPLY message type (echo reply). -/
def ICMP_ECHOREPLY : Nat := 0

/-- The configured target `inet_addr(GOOGLE_DNS)` = `inet_addr("8.8.8.8")`,
viewed as the 32-bit value 0x08080808. -/
def targetAddrNum : Nat := 134744072

/-!
Section: the checksum function.

C source (`calculate_checksum`, lines 163–181):

```
unsigned short calculate_checksum(void* b, int len)
{
    unsigned short* buf = (unsigned short*)b;
    unsigned int sum = 0;
    unsigned short result;
    for (sum = 0; len > 1; len -= 2)
        sum += *buf++;
    if (len == 1)
        sum += *(unsigned char*)buf;
    sum = (sum >> 16) + (sum & 0xFFFF);
    sum += (sum >> 16);
    result = ~sum;
    return result;
}
```
-/

/-- The accumulation loop of `calculate_checksum`: consume the buffer two
bytes at a time as little-endian 16-bit words, adding each into the 32-bit
accumulator `s` (C `unsigned int`, hence `% U32` at every addition); a single
trailing byte is added as itself (`*(unsigned char*)buf`). -/
def sumWords : List Nat → Nat → Nat
  | [], s => s
  | [b0], s => (s + b0) % U32
  | b0 :: b1 :: rest, s => sumWords rest ((s + (b0 + 256 * b1)) % U32)

/-- The checksum function `calculate_checksum` on a byte buffer: accumulate
16-bit words, fold the high half into the low half, fold once more, and
return the complement truncated to `unsigned short`.  `s3 < U32` always holds
(see `sumWords_lt`), so `(U32 - 1 - s3) % U16` is exactly the C expression
`result = ~sum` on a 32-bit `sum`. -/
def calculate_checksum (b : List Nat) : Nat :=
  let s1 := sumWords b 0
  let s2 := s1 / U16 + s1 % U16
  let s3 := s2 + s2 / U16
  (U32 - 1 - s3) % U16

/-- Plain (unbounded) sum of the buffer's little-endian 16-bit words, the odd
trailing byte counted as a zero-padded word.  This is the spec's wording of
the accumulation, before reducing it modulo the 32-bit accumulator width. -/
def specWordSum : List Nat → Nat
  | [] => 0
  | [b0] => b0
  | b0 :: b1 :: rest => (b0 + 256 * b1) + specWordSum rest

/-- RFC 1071 Internet checksum as the spec words it: sum all 16-bit words
(odd trailing byte zero-padded) into a 32-bit accumulator, fold the high 16
bits into the low 16 bits, fold once more to absorb the carry of the first
fold, and return the bitwise complement of the resulting 16-bit sum. -/
def checksum_rfc1071 (b : List Nat) : Nat :=
  let s1 := specWordSum b % U32
  let s2 := s1 / U16 + s1 % U16
  let s3 := s2 + s2 / U16
  (U16 - 1) - s3 % U16

theorem sumWords_lt : ∀ (b : List Nat) (s : Nat), s < U32 → sumWords b s < U32
  | [], s, hs => hs
  | [_], _, _ => Nat.mod_lt _ (by norm_num [U32])
  | _ :: _ :: rest, s, _ =>
      sumWords_lt rest _ (Nat.mod_lt _ (by norm_num [U32]))

theorem sumWords_eq_spec :
    ∀ (b : List Nat) (s : Nat), s < U32 → sumWords b s = (specWordSum b + s) % U32
  | [], s, hs => by
      simp [sumWords, specWordSum, Nat.mod_eq_of_lt hs]
  | [b0], s, _ => by
      simp [sumWords, specWordSum, Nat.add_comm]
  | b0 :: b1 :: rest, s, _ => by
      rw [sumWords, sumWords_eq_spec rest _ (Nat.mod_lt _ (by norm_num [U32])),
        specWordSum]
      generalize specWordSum rest = r
      simp only [U32]
      omega

/-!
Section: checksum field writing and validation.

The sender stores the computed checksum through `icmp_header->checksum`
(a `u16` at byte offset 2 of the ICMP header); the receiver validates a
candidate reply by saving that field, zeroing it, recomputing the checksum
over the received bytes and comparing (lines 294–299).
-/

/-- Store a 16-bit value into the checksum field (byte offsets 2 and 3,
little-endian), as `icmp_header->checksum = c` does. -/
def writeChecksumField (b : List Nat) (c : Nat) : List Nat :=
  (b.set 2 (c % 256)).set 3 (c / 256 % 256)

/-- The receiver's validation of a buffer whose checksum field is filled in:
save the stored field, zero it, recompute `calculate_checksum` over the
buffer, and compare with the saved value. -/
def validate_checksum (b : List Nat) : Bool :=
  let original := b.getD 2 0 + 256 * b.getD 3 0
  let z := (b.set 2 0).set 3 0
  original == calculate_checksum z

theorem set_getElem?_eq_self {α : Type} :
    ∀ (l : List α) (i : Nat) (a : α), l[i]? = some a → l.set i a = l
  | [], _, _, h => by simp at h
  | x :: xs, 0, a, h => by
      simp only [List.getElem?_cons_zero, Option.some.injEq] at h
      simp [List.set, h]
  | x :: xs, i + 1, a, h => by
      simp only [List.getElem?_cons_succ] at h
      simp [List.set, set_getElem?_eq_self xs i a h]

theorem calculate_checksum_lt (b : List Nat) : calculate_checksum b < U16 :=
  Nat.mod_lt _ (by norm_num [U16])

/-- C1: `calculate_checksum`, applied to any byte buffer of any length,
computes the RFC 1071 Internet checksum exactly as the spec describes it:
16-bit words summed into a 32-bit accumulator, odd trailing byte zero-padded,
two folds, then the bitwise complement of the final 16-bit sum.  Both sides
are total functions on buffers, so there is no error condition. -/
theorem checksum_computes_rfc1071 (b : List Nat) :
    calculate_checksum b = checksum_rfc1071 b := by
  unfold calculate_checksum checksum_rfc1071
  rw [sumWords_eq_spec b 0 (by norm_num [U32])]
  have h1 : (specWordSum b + 0) % U32 = specWordSum b % U32 := by rw [Nat.add_zero]
  rw [h1]
  have h2 : specWordSum b % U32 < U32 := Nat.mod_lt _ (by norm_num [U32])
  generalize specWordSum b % U32 = x at h2
  simp only [U16, U32] at h2 ⊢
  omega

/-- C2: round-trip validation property of the checksum.  For every buffer
whose checksum field (bytes 2–3) is zero, writing `calculate_checksum` of the
buffer into that field yields a buffer on which the receiver's validation
procedure returns `true`. -/
theorem validate_after_write (b : List Nat) (hlen : 4 ≤ b.length)
    (h2 : b.getD 2 0 = 0) (h3 : b.getD 3 0 = 0) :
    validate_checksum (writeChecksumField b (calculate_checksum b)) = true := by
  have hc : calculate_checksum b < U16 := calculate_checksum_lt b
  have l2 : 2 < b.length := by omega
  have l3 : 3 < b.length := by omega
  have e2 : b[2]? = some 0 := by
    rw [List.getElem?_eq_getElem l2]
    rw [List.getD_eq_getElem?_getD, List.getElem?_eq_getElem l2] at h2
    simpa using h2
  have e3 : b[3]? = some 0 := by
    rw [List.getElem?_eq_getElem l3]
    rw [List.getD_eq_getElem?_getD, List.getElem?_eq_getElem l3] at h3
    simpa using h3
  unfold validate_checksum writeChecksumField
  set x := calculate_checksum b % 256 with hx
  set y := calculate_checksum b / 256 % 256 with hy
  have hzero : (((b.set 2 x).set 3 y).set 2 0).set 3 0 = b := by
    apply List.ext_getElem?
    intro i
    simp only [List.getElem?_set, List.length_set]
    by_cases h3i : 3 = i
    · subst h3i
      simp only [if_pos rfl, if_pos l3]
      exact e3.symm
    · by_cases h2i : 2 = i
      · subst h2i
        simp only [if_neg h3i, if_pos rfl, if_pos l2]
        exact e2.symm
      · simp only [if_neg h3i, if_neg h2i]
  have g2 : ((b.set 2 x).set 3 y).getD 2 0 = x := by
    rw [List.getD_eq_getElem?_getD, List.getElem?_set_ne (by omega),
      List.getElem?_set_self l2]
    rfl
  have g3 : ((b.set 2 x).set 3 y).getD 3 0 = y := by
    rw [List.getD_eq_getElem?_getD,
      List.getElem?_set_self (by rw [List.length_set]; omega)]
    rfl
  simp only [g2, g3, hzero]
  rw [beq_iff_eq, hx, hy]
  simp only [U16] at hc
  omega

/-- Concrete witness for C2 on an 8-byte ICMP header buffer with zeroed
checksum field. -/
theorem validate_after_write_witness :
    4 ≤ ([8, 0, 0, 0, 210, 4, 0, 0] : List Nat).length ∧
    ([8, 0, 0, 0, 210, 4, 0, 0] : List Nat).getD 2 0 = 0 ∧
    ([8, 0, 0, 0, 210, 4, 0, 0] : List Nat).getD 3 0 = 0 ∧
    validate_checksum
      (writeChecksumField [8, 0, 0, 0, 210, 4, 0, 0]
        (calculate_checksum [8, 0, 0, 0, 210, 4, 0, 0])) = true :=
  ⟨by decide, by decide, by decide,
    validate_after_write [8, 0, 0, 0, 210, 4, 0, 0] (by decide) (by decide) (by decide)⟩

/-!
Section: reply parsing and candidate matching.

On each inbound datagram the receiver locates the ICMP header at byte offset
`ihl * 4` of the received buffer (`iphdr::ihl` is the low nibble of byte 0 on
a little-endian machine) and accepts a candidate only when
`type == ICMP_ECHOREPLY && id == (getpid() & 0xFFFF) && sequence == sequence`
(lines 288–292).
-/

/-- The fields of `struct icmphdr` for an echo message: type, code, checksum,
identifier and sequence. -/
structure IcmpHeader where
  type : Nat
  code : Nat
  checksum : Nat
  id : Nat
  sequence : Nat
deriving DecidableEq

/-- Read a `struct icmphdr` from byte offset `off` of a buffer, fields laid
out as 1-byte type, 1-byte code, and little-endian 16-bit checksum,
identifier and sequence. -/
def parseIcmp (b : List Nat) (off : Nat) : IcmpHeader :=
  { type := b.getD off 0
    code := b.getD (off + 1) 0
    checksum := b.getD (off + 2) 0 + 256 * b.getD (off + 3) 0
    id := b.getD (off + 4) 0 + 256 * b.getD (off + 5) 0
    sequence := b.getD (off + 6) 0 + 256 * b.getD (off + 7) 0 }

/-- The candidate-match test of lines 291–292: the reply's type is
`ICMP_ECHOREPLY`, its identifier is this process's masked pid, and its
sequence is the outstanding sequence. -/
def candidate_match (h : IcmpHeader) (pid seq : Nat) : Bool :=
  (h.type == ICMP_ECHOREPLY) && (h.id == pid) && (h.sequence == seq)

/-- C3: a datagram is a candidate match iff its type is `ICMP_ECHOREPLY`,
its identifier equals the process identifier and its sequence equals the
outstanding sequence; in particular a differing identifier or sequence rules
a reply out regardless of the other fields. -/
theorem candidate_match_iff (h : IcmpHeader) (pid seq : Nat) :
    (candidate_match h pid seq = true ↔
      h.type = ICMP_ECHOREPLY ∧ h.id = pid ∧ h.sequence = seq) ∧
    (h.id ≠ pid → candidate_match h pid seq = false) ∧
    (h.sequence ≠ seq → candidate_match h pid seq = false) := by
  refine ⟨?_, ?_, ?_⟩
  · simp [candidate_match, and_assoc]
  · intro hid
    simp [candidate_match, hid]
  · intro hseq
    simp [candidate_match, hseq]

/-- Concrete witness for C3: a reply with matching type and sequence but a
different identifier is not a match, and one with a different sequence is not
a match. -/
theorem candidate_match_iff_witness :
    candidate_match ⟨0, 0, 0, 5, 7⟩ 6 7 = false ∧
    candidate_match ⟨0, 0, 0, 6, 9⟩ 6 7 = false :=
  ⟨(candidate_match_iff ⟨0, 0, 0, 5, 7⟩ 6 7).2.1 (by decide),
    (candidate_match_iff ⟨0, 0, 0, 6, 9⟩ 6 7).2.2 (by decide)⟩

/-!
Section: the wait loop.

Lines 273–310: after a successful `sendto`, the receiver loops while the
elapsed time since the pre-send `start` timestamp, cast to milliseconds, is
below `MAX_WAIT_TIME`.  Each pass calls `recvfrom` (with the sender address
argument `NULL`, so the reply's actual source is discarded).  A failed read
(`recv_len == -1`, which includes the 1-second `SO_RCVTIMEO` expiry) sets
`received = false` and breaks out immediately.  Otherwise the datagram is
parsed; a candidate match is checksum-validated, a validated match prints the
success line and breaks with `received = true`, and everything else falls
through to the next pass.

The model replays the loop over a list of read events.  Each event carries
`tCheck`, the elapsed nanoseconds at the loop-condition check preceding the
read, and `tEnd`, the elapsed nanoseconds at the `end` timestamp taken right
after `recvfrom` returns (the value whose delta from `start` is reported as
the round-trip time).
-/

/-- One inbound raw-socket read: either a failed/timed-out `recvfrom`
(returns -1) or a received datagram with buffer contents and length. -/
structure RecvPacket where
  data : List Nat
  len : Nat
deriving DecidableEq

/-- One pass of the wait loop: elapsed time at the loop check, elapsed time
after the read, and the read's result (`fail` for `recv_len == -1`). -/
inductive RecvEvent
  | fail (tCheck tEnd : Nat)
  | pkt (tCheck tEnd : Nat) (p : RecvPacket)
deriving DecidableEq

/-- IP header length of a received datagram: `ihl * 4`, where `ihl` is the
low nibble of the first byte. -/
def ipHeaderLen (p : RecvPacket) : Nat := p.data.getD 0 0 % 16 * 4

/-- The TTL byte of the received datagram's IP header (offset 8). -/
def ttlField (p : RecvPacket) : Nat := p.data.getD 8 0

/-- The byte range handed to `calculate_checksum` during validation: the
received bytes from the ICMP header to `recv_len`, with the checksum field
zeroed (the code zeroes it, recomputes, and restores it). -/
def icmpChecksumInput (p : RecvPacket) : List Nat :=
  (((p.data.set (ipHeaderLen p + 2) 0).set (ipHeaderLen p + 3) 0).drop
    (ipHeaderLen p)).take (p.len - ipHeaderLen p)

/-- Process one received datagram (lines 288–308): on a candidate match whose
stored checksum equals the recomputed one, return the reply's sequence and the
IP header's TTL; otherwise return nothing and fall through to the next pass. -/
def validatedMatch (pid seq : Nat) (p : RecvPacket) : Option (Nat × Nat) :=
  let h := parseIcmp p.data (ipHeaderLen p)
  if candidate_match h pid seq then
    if h.checksum == calculate_checksum (icmpChecksumInput p) then
      some (h.sequence, ttlField p)
    else
      none
  else
    none

/-- The fields of the success line printed on a validated match: the literal
"64 bytes" caption, the address given to `inet_ntoa` (the configured target),
the reply's sequence, the reply's TTL, and the reported round-trip time in
nanoseconds. -/
structure MatchInfo where
  sizeCaption : Nat
  srcAddr : Nat
  seq : Nat
  ttl : Nat
  durationNs : Nat
deriving DecidableEq

/-- Outcome of one probe's wait window. -/
inductive WaitOutcome
  | matched (m : MatchInfo)
  | timedOut
deriving DecidableEq

/-- The wait loop of lines 273–310 over a list of read events.  A `fail`
event (failed or timed-out `recvfrom`) ends the wait immediately with
`received = false`; a datagram read while the budget check still passes is
processed, and a non-matching or invalid datagram falls through to the next
pass.  An exhausted event list corresponds to the loop condition ending the
wait. -/
def waitForReply (pid seq : Nat) : List RecvEvent → WaitOutcome
  | [] => .timedOut
  | .fail _ _ :: _ => .timedOut
  | .pkt tCheck tEnd p :: rest =>
    if tCheck / 1000000 < MAX_WAIT_TIME then
      match validatedMatch pid seq p with
      | some (rseq, ttl) => .matched ⟨64, targetAddrNum, rseq, ttl, tEnd⟩
      | none => waitForReply pid seq rest
    else
      .timedOut

/-- A well-formed echo reply datagram: a 20-byte IP header (version 4,
`ihl = 5`, TTL 55) followed by an 8-byte ICMP echo-reply header with
identifier 1234, sequence 0 and a correct checksum (stored little-endian as
bytes 45, 251 for the value 64301). -/
def goodPkt : RecvPacket :=
  { data := [69, 0, 0, 0, 0, 0, 0, 0, 55, 0, 0, 0, 0, 0, 0, 0, 0, 0, 0, 0,
      0, 0, 45, 251, 210, 4, 0, 0]
    len := 28 }

/-- The same datagram as `goodPkt` with its stored checksum corrupted by one
(bytes 46, 251 encode 64302 instead of the correct 64301). -/
def badPkt : RecvPacket :=
  { data := [69, 0, 0, 0, 0, 0, 0, 0, 55, 0, 0, 0, 0, 0, 0, 0, 0, 0, 0, 0,
      0, 0, 46, 251, 210, 4, 0, 0]
    len := 28 }

/-- C6 counterexample: the claim says a failed/timed-out read made while the
overall budget is not exhausted leads to a re-poll with further reads.  In
the code a failed read breaks out of the wait immediately: with a read
failure at 500 ms (budget 1000 ms) followed by a perfectly valid matching
reply, the wait ends as a timeout, whereas re-polling (the same event list
without the failed read) would have matched. -/
theorem fail_read_not_repolled :
    (500000000 / 1000000 < MAX_WAIT_TIME) ∧
    waitForReply 1234 0
      [.fail 500000000 600000000, .pkt 700000000 800000000 goodPkt] = .timedOut ∧
    waitForReply 1234 0 [.pkt 700000000 800000000 goodPkt] =
      .matched ⟨64, targetAddrNum, 0, 55, 800000000⟩ ∧
    waitForReply 1234 0
        [.fail 500000000 600000000, .pkt 700000000 800000000 goodPkt] ≠
      waitForReply 1234 0 [.pkt 700000000 800000000 goodPkt] := by
  refine ⟨by norm_num [MAX_WAIT_TIME], by decide, by decide, by decide⟩

/-- C6 amended: a failed or timed-out raw-socket read ends the wait
immediately with a timeout outcome (`received = false; break`), regardless of
how much of the overall budget remains and of any datagrams that could still
have been read. -/
theorem fail_read_ends_wait (pid seq tCheck tEnd : Nat) (rest : List RecvEvent) :
    waitForReply pid seq (.fail tCheck tEnd :: rest) = .timedOut := rfl

/-- C7: a datagram whose type, identifier and sequence all match the
outstanding probe but whose stored checksum differs from the checksum
recomputed over the received ICMP bytes (checksum field zeroed) never
produces a match: if the budget check still passes the wait continues with
the remaining reads, and otherwise the outcome is a timeout. -/
theorem corrupt_checksum_never_matches (pid seq tCheck tEnd : Nat)
    (p : RecvPacket) (rest : List RecvEvent)
    (hcand : candidate_match (parseIcmp p.data (ipHeaderLen p)) pid seq = true)
    (hbad : (parseIcmp p.data (ipHeaderLen p)).checksum ≠
      calculate_checksum (icmpChecksumInput p)) :
    waitForReply pid seq (.pkt tCheck tEnd p :: rest) =
      if tCheck / 1000000 < MAX_WAIT_TIME then waitForReply pid seq rest
      else .timedOut := by
  by_cases hlt : tCheck / 1000000 < MAX_WAIT_TIME
  · rw [if_pos hlt]
    simp only [waitForReply, if_pos hlt, validatedMatch]
    rw [if_pos hcand, if_neg (by simpa using hbad)]
  · rw [if_neg hlt]
    simp only [waitForReply, if_neg hlt]

/-- Concrete witness for C7: the corrupted reply `badPkt` is a candidate
match with a wrong stored checksum, and a wait window consisting of just that
datagram ends as a timeout. -/
theorem corrupt_checksum_never_matches_witness :
    candidate_match (parseIcmp badPkt.data (ipHeaderLen badPkt)) 1234 0 = true ∧
    (parseIcmp badPkt.data (ipHeaderLen badPkt)).checksum ≠
      calculate_checksum (icmpChecksumInput badPkt) ∧
    waitForReply 1234 0 [.pkt 100000000 200000000 badPkt] = .timedOut := by
  refine ⟨by decide, by decide, ?_⟩
  rw [corrupt_checksum_never_matches 1234 0 100000000 200000000 badPkt []
    (by decide) (by decide)]
  decide

/-- Well-formedness of one read event: the clock is monotone across the read
(`tCheck ≤ tEnd`) and `recvfrom` returns within the 1-second kernel receive
timeout (`tEnd ≤ tCheck + RCV_TIMEOUT_NS`). -/
def eventWf : RecvEvent → Bool
  | .fail tCheck tEnd =>
      decide (tCheck ≤ tEnd) && decide (tEnd ≤ tCheck + RCV_TIMEOUT_NS)
  | .pkt tCheck tEnd _ =>
      decide (tCheck ≤ tEnd) && decide (tEnd ≤ tCheck + RCV_TIMEOUT_NS)

/-- C8 counterexample: the claim bounds the reported round-trip latency by
the wait budget `MAX_WAIT_TIME` (1000 ms), but the budget is only checked
before each read and the latency is stamped after the read returns.  A valid
matching reply read at 999 ms elapsed that arrives at 1500 ms (within the
1-second receive timeout, so the event is well formed) is reported as a match
with latency 1500 ms, exceeding the budget. -/
theorem matched_latency_exceeds_budget :
    waitForReply 1234 0 [.pkt 999000000 1500000000 goodPkt] =
      .matched ⟨64, targetAddrNum, 0, 55, 1500000000⟩ ∧
    eventWf (.pkt 999000000 1500000000 goodPkt) = true ∧
    ¬(1500000000 ≤ MAX_WAIT_NS) := by
  refine ⟨by decide, by decide, by norm_num [MAX_WAIT_NS]⟩

/-- C8 amended: for every probe that reaches MATCHED under well-formed read
events, the reported round-trip latency is non-negative (it is a `Nat`
measured from the pre-send timestamp) and strictly below
`MAX_WAIT_TIME + the 1-second receive timeout` (2000 ms), though not below
`MAX_WAIT_TIME` itself. -/
theorem matched_latency_bounded (pid seq : Nat) (events : List RecvEvent)
    (m : MatchInfo) (hwf : events.all eventWf = true)
    (hm : waitForReply pid seq events = .matched m) :
    m.durationNs < MAX_WAIT_NS + RCV_TIMEOUT_NS := by
  induction events with
  | nil => simp [waitForReply] at hm
  | cons e rest ih =>
    rw [List.all_cons, Bool.and_eq_true] at hwf
    obtain ⟨hwe, hwrest⟩ := hwf
    cases e with
    | fail tC tE => simp [waitForReply] at hm
    | pkt tC tE p =>
      by_cases hlt : tC / 1000000 < MAX_WAIT_TIME
      · simp only [waitForReply, if_pos hlt] at hm
        cases hvm : validatedMatch pid seq p with
        | none =>
            rw [hvm] at hm
            exact ih hwrest hm
        | some pr =>
            obtain ⟨rseq, ttl⟩ := pr
            rw [hvm] at hm
            injection hm with hminfo
            subst hminfo
            simp only [eventWf, Bool.and_eq_true, decide_eq_true_eq,
              RCV_TIMEOUT_NS] at hwe
            simp only [MAX_WAIT_TIME] at hlt
            simp only [MAX_WAIT_NS, RCV_TIMEOUT_NS]
            omega
      · simp only [waitForReply, if_neg hlt] at hm
        exact absurd hm (by simp)

/-- Concrete witness for C8 amended: a match on a valid reply read at 0 ms
and stamped at 1 ms reports a latency below 2000 ms. -/
theorem matched_latency_bounded_witness :
    waitForReply 1234 0 [.pkt 0 1000000 goodPkt] =
      .matched ⟨64, targetAddrNum, 0, 55, 1000000⟩ ∧
    (⟨64, targetAddrNum, 0, 55, 1000000⟩ : MatchInfo).durationNs <
      MAX_WAIT_NS + RCV_TIMEOUT_NS :=
  ⟨by decide,
    matched_latency_bounded 1234 0 [.pkt 0 1000000 goodPkt] _ (by decide) (by decide)⟩

/-!
Section: per-probe output.

Lines 301–315: a validated match prints
`"64 bytes from " << inet_ntoa(target_addr.sin_addr) << ": icmp_seq=" <<
sequence << " ttl=" << ttl << " time=" << fixed << setprecision(2) <<
duration/1e6 << " ms"`; a probe whose wait ends without a match prints
`"Request timed out"`.  Note the size caption is the literal 64 and the
printed address is the configured target (`recvfrom` is called with a `NULL`
source-address argument, so the reply's actual source is never read).
-/

/-- The fields of the one line emitted per probe: a success line with size
caption, printed address, sequence, TTL and round-trip nanoseconds (printed
as milliseconds with two decimals), or the timeout line. -/
inductive ProbeLine
  | success (size addr seq ttl durationNs : Nat)
  | timeout
deriving DecidableEq

/-- The line a probe emits, as a function of its wait window. -/
def probeReport (pid seq : Nat) (events : List RecvEvent) : ProbeLine :=
  match waitForReply pid seq events with
  | .matched m => .success m.sizeCaption m.srcAddr m.seq m.ttl m.durationNs
  | .timedOut => .timeout

theorem waitForReply_matched_shape (pid seq : Nat) :
    ∀ (events : List RecvEvent) (m : MatchInfo),
      waitForReply pid seq events = .matched m →
      m.sizeCaption = 64 ∧ m.srcAddr = targetAddrNum
  | [], m, hm => by simp [waitForReply] at hm
  | .fail _ _ :: _, m, hm => by simp [waitForReply] at hm
  | .pkt tC tE p :: rest, m, hm => by
      by_cases hlt : tC / 1000000 < MAX_WAIT_TIME
      · simp only [waitForReply, if_pos hlt] at hm
        cases hvm : validatedMatch pid seq p with
        | none =>
            rw [hvm] at hm
            exact waitForReply_matched_shape pid seq rest m hm
        | some pr =>
            obtain ⟨rseq, ttl⟩ := pr
            rw [hvm] at hm
            injection hm with hminfo
            subst hminfo
            exact ⟨rfl, rfl⟩
      · simp only [waitForReply, if_neg hlt] at hm
        exact absurd hm (by simp)

/-- C9 counterexample: the claim says the success line contains the reply
size and the reply's source address.  A validated matching reply of 28 bytes
(8 ICMP bytes after a 20-byte IP header) is reported with the literal caption
64 — which is neither the datagram's length nor its ICMP length — and with
the configured target address, never the reply's actual source (the code
passes `NULL` for the source address to `recvfrom`). -/
theorem success_line_fields_fixed :
    probeReport 1234 0 [.pkt 0 1000000 goodPkt] =
      .success 64 targetAddrNum 0 55 1000000 ∧
    goodPkt.len = 28 ∧
    goodPkt.len ≠ 64 ∧
    goodPkt.len - ipHeaderLen goodPkt ≠ 64 := by decide

/-- C9 amended: every probe emits exactly one line — either a success line
whose size caption is the constant 64 and whose printed address is the
configured target, together with the reply's sequence, the reply's TTL and
the measured round-trip time, or the timeout line. -/
theorem probe_reports_one_line (pid seq : Nat) (events : List RecvEvent) :
    (∃ rseq ttl d,
      probeReport pid seq events = .success 64 targetAddrNum rseq ttl d) ∨
    probeReport pid seq events = .timeout := by
  unfold probeReport
  cases hw : waitForReply pid seq events with
  | matched m =>
      left
      obtain ⟨h64, haddr⟩ := waitForReply_matched_shape pid seq events m hw
      exact ⟨m.seq, m.ttl, m.durationNs, by simp [h64, haddr]⟩
  | timedOut => right; rfl

/-!
Section: the probe loop.

Lines 190–191 and 240–262: `send_count` starts at 10 and `sequence` at 0.
Before the loop, the send buffer is initialized once: `type = ICMP_ECHO`,
`code = 0`, `id = getpid() & 0xFFFF`, and payload bytes `i = i % 256` for
`i` from `sizeof(struct icmphdr)` to 63 (the checksum and sequence fields,
bytes 2–3 and 6–7, are only written inside the loop).  Each iteration of
`while (send_count > 0)` stores the current `sequence` into bytes 6–7,
zeroes the checksum field, computes `calculate_checksum` over the whole
64-byte buffer and stores it into bytes 2–3, then transmits.  No statement
in the loop body assigns `send_count` or `sequence`.
-/

/-- The send buffer as initialized before the loop (lines 241–253), with the
two not-yet-written fields (checksum, sequence) taken as zero: byte 0 is
`ICMP_ECHO`, byte 1 the code 0, bytes 4–5 the little-endian process
identifier masked to 16 bits, and bytes 8–63 the payload pattern `i % 256`.
Here `pid` stands for the already-masked `getpid() & 0xFFFF`. -/
def initBuffer (pid : Nat) : List Nat :=
  (List.range 64).map fun i =>
    if i = 0 then ICMP_ECHO
    else if i = 1 then 0
    else if i = 4 then pid % 256
    else if i = 5 then pid / 256 % 256
    else if i < 8 then 0
    else i % 256

/-- The buffer after lines 260–261: the current sequence stored little-endian
into bytes 6–7 and the checksum field zeroed. -/
def seqWritten (b : List Nat) (seq : Nat) : List Nat :=
  (((b.set 6 (seq % 256)).set 7 (seq / 256 % 256)).set 2 0).set 3 0

/-- The buffer as transmitted (after line 262): sequence written, checksum
recomputed over the whole buffer and stored into bytes 2–3. -/
def updateBuffer (b : List Nat) (seq : Nat) : List Nat :=
  writeChecksumField (seqWritten b seq) (calculate_checksum (seqWritten b seq))

theorem updateBuffer_getD_other (b : List Nat) (s i : Nat)
    (h2 : i ≠ 2) (h3 : i ≠ 3) (h6 : i ≠ 6) (h7 : i ≠ 7) :
    (updateBuffer b s).getD i 0 = b.getD i 0 := by
  unfold updateBuffer writeChecksumField seqWritten
  simp only [List.getD_eq_getElem?_getD]
  rw [List.getElem?_set_ne (by omega), List.getElem?_set_ne (by omega),
    List.getElem?_set_ne (by omega), List.getElem?_set_ne (by omega),
    List.getElem?_set_ne (by omega), List.getElem?_set_ne (by omega)]

theorem initBuffer_getD (pid i : Nat) (hi : i < 64) :
    (initBuffer pid).getD i 0 =
      if i = 0 then ICMP_ECHO
      else if i = 1 then 0
      else if i = 4 then pid % 256
      else if i = 5 then pid / 256 % 256
      else if i < 8 then 0
      else i % 256 := by
  unfold initBuffer
  rw [List.getD_eq_getElem?_getD, List.getElem?_map, List.getElem?_range hi]
  rfl

/-- C10: between two successive transmissions, only the sequence field
(bytes 6–7) and the checksum field (bytes 2–3) of the send buffer are
rewritten; every other byte keeps its value, and the type, code, identifier
and payload bytes of every transmitted packet hold the values initialized
once before the loop. -/
theorem resend_frame_effect (pid s1 s2 : Nat) :
    (∀ i, i ≠ 2 → i ≠ 3 → i ≠ 6 → i ≠ 7 →
      (updateBuffer (updateBuffer (initBuffer pid) s1) s2).getD i 0 =
        (updateBuffer (initBuffer pid) s1).getD i 0) ∧
    (updateBuffer (updateBuffer (initBuffer pid) s1) s2).getD 0 0 = ICMP_ECHO ∧
    (updateBuffer (updateBuffer (initBuffer pid) s1) s2).getD 1 0 = 0 ∧
    (updateBuffer (updateBuffer (initBuffer pid) s1) s2).getD 4 0 = pid % 256 ∧
    (updateBuffer (updateBuffer (initBuffer pid) s1) s2).getD 5 0 =
      pid / 256 % 256 ∧
    (∀ i, 8 ≤ i → i < 64 →
      (updateBuffer (updateBuffer (initBuffer pid) s1) s2).getD i 0 = i % 256) := by
  have hframe : ∀ i, i ≠ 2 → i ≠ 3 → i ≠ 6 → i ≠ 7 →
      (updateBuffer (updateBuffer (initBuffer pid) s1) s2).getD i 0 =
        (initBuffer pid).getD i 0 := by
    intro i h2 h3 h6 h7
    rw [updateBuffer_getD_other _ _ _ h2 h3 h6 h7,
      updateBuffer_getD_other _ _ _ h2 h3 h6 h7]
  refine ⟨?_, ?_, ?_, ?_, ?_, ?_⟩
  · intro i h2 h3 h6 h7
    rw [updateBuffer_getD_other _ _ _ h2 h3 h6 h7]
  · rw [hframe 0 (by omega) (by omega) (by omega) (by omega),
      initBuffer_getD pid 0 (by omega)]
    norm_num
  · rw [hframe 1 (by omega) (by omega) (by omega) (by omega),
      initBuffer_getD pid 1 (by omega)]
    norm_num
  · rw [hframe 4 (by omega) (by omega) (by omega) (by omega),
      initBuffer_getD pid 4 (by omega)]
    norm_num
  · rw [hframe 5 (by omega) (by omega) (by omega) (by omega),
      initBuffer_getD pid 5 (by omega)]
    norm_num
  · intro i h8 h64
    rw [hframe i (by omega) (by omega) (by omega) (by omega),
      initBuffer_getD pid i h64]
    simp only [if_neg (by omega : ¬i = 0), if_neg (by omega : ¬i = 1),
      if_neg (by omega : ¬i = 4), if_neg (by omega : ¬i = 5),
      if_neg (by omega : ¬i < 8)]

/-- Concrete witness for C10: transmitting sequences 0 then 1 with identifier
1234, byte 9 (a payload byte) is unchanged between the two packets, and the
second packet's type byte is `ICMP_ECHO`. -/
theorem resend_frame_effect_witness :
    (updateBuffer (updateBuffer (initBuffer 1234) 0) 1).getD 9 0 =
      (updateBuffer (initBuffer 1234) 0).getD 9 0 ∧
    (updateBuffer (updateBuffer (initBuffer 1234) 0) 1).getD 0 0 = ICMP_ECHO :=
  ⟨(resend_frame_effect 1234 0 1).1 9 (by decide) (by decide) (by decide)
      (by decide),
    (resend_frame_effect 1234 0 1).2.1⟩

/-- The per-iteration state of the probe loop: the `send_count` and
`sequence` locals and the send buffer. -/
structure LoopState where
  send_count : Nat
  sequence : Nat
  buf : List Nat

/-- The state on entry to the loop: `send_count = 10`, `sequence = 0`, and
the buffer initialized as by lines 241–253. -/
def initState (pid : Nat) : LoopState :=
  { send_count := 10, sequence := 0, buf := initBuffer pid }

/-- One iteration of `while (send_count > 0)` (lines 255–316): the body
rewrites the buffer's sequence and checksum fields and transmits; receive
processing only writes `recv_buffer` and block-local variables, and no
statement of the body assigns `send_count` or `sequence`. -/
def loopIter (st : LoopState) : LoopState :=
  { st with buf := updateBuffer st.buf st.sequence }

/-- C4: the loop guard `send_count > 0` is true at every iteration boundary —
`send_count` stays 10 because no statement in the loop body decrements it —
so the loop never exits; in particular it does not stop after 10 probes as
the spec states. -/
theorem loop_guard_always_true (pid n : Nat) :
    (loopIter^[n] (initState pid)).send_count = 10 ∧
    0 < (loopIter^[n] (initState pid)).send_count := by
  have h : ∀ k, (loopIter^[k] (initState pid)).send_count = 10 := by
    intro k
    induction k with
    | zero => rfl
    | succ k ih =>
        rw [Function.iterate_succ_apply']
        exact ih
  exact ⟨h n, by rw [h n]; omega⟩

/-- C5: after any number of iterations the `sequence` local is still 0 — the
loop body never increments it — so while the first probe is indeed sent with
sequence 0, every later probe reuses sequence 0 instead of the previous
sequence plus one. -/
theorem sequence_never_advances (pid n : Nat) :
    (loopIter^[n] (initState pid)).sequence = 0 := by
  induction n with
  | zero => rfl
  | succ n ih =>
      rw [Function.iterate_succ_apply']
      exact ih

end IcmpProbe
